import Mathlib

/-!
Verification of the Kansas SOS business-registry crawler (`src/sos_crawler.py`)
against its natural-language specification.

The Python source is shallowly embedded: Python values that flow through the
validation and persistence layers become the inductive type `PyVal`; dicts are
insertion-ordered association lists; a raise site is modelled with
`Option`/`Except` and a `try/except` becomes a `match` on that result.
File-system writes are modelled as always succeeding (the artifact name is the
observable); the wall clock is passed explicitly as a `Ctx` of pre-rendered
timestamp strings, exactly the strings `datetime.now().strftime(...)` /
`isoformat()` would produce.
-/

set_option maxRecDepth 4000

/-- Model of the Python values handled by the crawler's validation and
persistence layers: `None`, booleans, integers, strings, lists, string-keyed
dicts (insertion-ordered association lists, as in CPython), and opaque
non-JSON-serializable objects (e.g. a live Playwright element handle), carried
with the name of their Python type. -/
inductive PyVal where
  | none : PyVal
  | bool : Bool → PyVal
  | int : Int → PyVal
  | str : String → PyVal
  | list : List PyVal → PyVal
  | dict : List (String × PyVal) → PyVal
  | obj : String → PyVal
deriving Repr

/-- Python dict lookup `d.get(k)` on an association list: first entry wins
(our dicts never hold duplicate keys). -/
def assocGet {α : Type} : List (String × α) → String → Option α
  | [], _ => Option.none
  | (k', v) :: rest, k => if k' = k then some v else assocGet rest k

/-- Python dict assignment `d[k] = v`: update the value in place if the key is
present (keeping its position, as CPython does), else append the new pair. -/
def assocSet {α : Type} : List (String × α) → String → α → List (String × α)
  | [], k, v => [(k, v)]
  | (k', v') :: rest, k, v =>
    if k' = k then (k', v) :: rest else (k', v') :: assocSet rest k v

/-- Lookup inside a `PyVal.dict`; `Option.none` for missing keys or non-dicts. -/
def pyDictGet (v : PyVal) (k : String) : Option PyVal :=
  match v with
  | .dict kvs => assocGet kvs k
  | _ => Option.none

/-- String projection of a dict entry: `some s` when present and a `str`. -/
def pyGetStr (v : PyVal) (k : String) : Option String :=
  match pyDictGet v k with
  | some (.str s) => some s
  | _ => Option.none

/-- Whether a value is a Python dict (models `isinstance(x, dict)`). -/
def PyVal.isDict : PyVal → Bool
  | .dict _ => true
  | _ => false

/-- Python truthiness of the modelled values. -/
def pyTruthy : PyVal → Bool
  | .none => false
  | .bool b => b
  | .int n => n != 0
  | .str s => s ≠ ""
  | .list xs => !xs.isEmpty
  | .dict kvs => !kvs.isEmpty
  | .obj _ => true

mutual
/-- Whether `json.dumps` accepts the value (`True` iff serialization raises no
`TypeError`): opaque objects are the only non-serializable leaves. -/
def serB : PyVal → Bool
  | .none => true
  | .bool _ => true
  | .int _ => true
  | .str _ => true
  | .list xs => serList xs
  | .dict kvs => serKVs kvs
  | .obj _ => false

/-- Serializability of every element of a list. -/
def serList : List PyVal → Bool
  | [] => true
  | x :: xs => serB x && serList xs

/-- Serializability of every value of a dict. -/
def serKVs : List (String × PyVal) → Bool
  | [] => true
  | (_, v) :: xs => serB v && serKVs xs
end

/-- Single-quote character, used by Python `repr` of strings and dicts. -/
def pyQuote : String := String.singleton (Char.ofNat 39)

mutual
/-- Model of Python `str()` / `repr()` on the embedded values, used for the
`str(business_data)[:500]` preview in the serialization-failure record. -/
def pyRepr : PyVal → String
  | .none => "None"
  | .bool true => "True"
  | .bool false => "False"
  | .int n => toString n
  | .str s => pyQuote ++ s ++ pyQuote
  | .list xs => "[" ++ pyReprList xs ++ "]"
  | .dict kvs => "\x7b" ++ pyReprKVs kvs ++ "\x7d"
  | .obj tag => "<" ++ tag ++ " object>"

/-- Comma-separated reprs of list elements. -/
def pyReprList : List PyVal → String
  | [] => ""
  | [x] => pyRepr x
  | x :: xs => pyRepr x ++ ", " ++ pyReprList xs

/-- Comma-separated `'key': value` reprs of dict entries. -/
def pyReprKVs : List (String × PyVal) → String
  | [] => ""
  | [(k, v)] => pyQuote ++ k ++ pyQuote ++ ": " ++ pyRepr v
  | (k, v) :: xs => pyQuote ++ k ++ pyQuote ++ ": " ++ pyRepr v ++ ", " ++ pyReprKVs xs
end

mutual
/-- Python type name of the first value `json.dumps` chokes on, for the
`str(e)` failure message. -/
def firstBadTag : PyVal → Option String
  | .none => Option.none
  | .bool _ => Option.none
  | .int _ => Option.none
  | .str _ => Option.none
  | .list xs => firstBadTagList xs
  | .dict kvs => firstBadTagKVs kvs
  | .obj tag => some tag

/-- First non-serializable element of a list. -/
def firstBadTagList : List PyVal → Option String
  | [] => Option.none
  | x :: xs =>
    match firstBadTag x with
    | some t => some t
    | Option.none => firstBadTagList xs

/-- First non-serializable value of a dict. -/
def firstBadTagKVs : List (String × PyVal) → Option String
  | [] => Option.none
  | (_, v) :: xs =>
    match firstBadTag v with
    | some t => some t
    | Option.none => firstBadTagKVs xs
end

/-- Model of `str(e)` for the `TypeError` that `json.dumps` raises. -/
def serErrorMessage (v : PyVal) : String :=
  "Object of type " ++ (firstBadTag v).getD "object" ++ " is not JSON serializable"

/-- Output root `self.output_dir`. -/
def outputDir : String := "kansas_business_data"

/-- Ambient session data passed explicitly: the timestamp strings the source
reads from `datetime.now()` at this point of the run. `stamp` is
`strftime("%Y%m%d_%H%M%S")`, `hms` is `strftime("%H%M%S")`, `iso` is
`isoformat()`. -/
structure Ctx where
  stamp : String
  hms : String
  iso : String
deriving Repr, DecidableEq

/-- Artifact name produced by `save_html_fallback` (lines 46-62); the write is
modelled as succeeding, so the function returns the filename it targets. -/
def save_html_fallback (ctx : Ctx) (fnamePre : String) (errorType : String) : String :=
  outputDir ++ "/html_fallback/" ++ fnamePre ++ "_" ++ errorType ++ "_" ++ ctx.stamp ++ ".html"

/-- Metadata attachment at the top of `safe_extract_json_data` (lines 101-104):
on a dict input, set `search_term`, `extracted_at` and `status='success'`;
any other value is left untouched. -/
def withMeta (ctx : Ctx) (business_data : PyVal) (search_term : String) : PyVal :=
  match business_data with
  | .dict kvs =>
    .dict (assocSet (assocSet (assocSet kvs "search_term" (.str search_term))
      "extracted_at" (.str ctx.iso)) "status" (.str "success"))
  | v => v

/-- `safe_extract_json_data` (lines 97-132): attach metadata, validate with
`json.dumps`; on a serialization `TypeError`/`ValueError`, save an HTML
fallback and return the minimal error record of lines 122-130 together with
the fallback filename. The only raise site inside the `try` is `json.dumps`,
and its exception classes are exactly the ones the `except` clause catches,
so the function is total. -/
def safe_extract_json_data (ctx : Ctx) (business_data : PyVal) (search_term : String) :
    PyVal × Option String :=
  let bd := withMeta ctx business_data search_term
  if serB bd then
    (bd, Option.none)
  else
    let htmlFile := save_html_fallback ctx ("json_fail_" ++ search_term) "serialization_error"
    (PyVal.dict [
      ("search_term", .str search_term),
      ("status", .str "error"),
      ("error_type", .str "json_serialization_failed"),
      ("error_message", .str (serErrorMessage bd)),
      ("scraped_at", .str ctx.iso),
      ("html_fallback_file", .str htmlFile),
      ("partial_business_data",
        if pyTruthy bd then .str (String.mk ((pyRepr bd).data.take 500)) else .none)],
     some htmlFile)

/-- The `try` body of `save_data_with_fallback` (lines 136-152): write HTML
verbatim when the dict carries `html_content` (a non-string value there makes
`f.write` raise `TypeError`), otherwise `json.dump` the data (raising
`TypeError` when not serializable). `.error` carries the Python exception
class name. -/
def trySaveStructured (data : PyVal) (filename : String) : Except String String :=
  let filepath := outputDir ++ "/" ++ filename
  match data with
  | .dict kvs =>
    match assocGet kvs "html_content" with
    | some (.str _) => .ok filepath
    | some _ => .error "TypeError"
    | Option.none => if serB data then .ok filepath else .error "TypeError"
  | d => if serB d then .ok filepath else .error "TypeError"

/-- `save_data_with_fallback` (lines 134-176): on a `TypeError`/`ValueError`
from the structured write, save the page markup as an HTML fallback, write a
sibling error-metadata artifact, and return the HTML artifact's path instead;
any other exception class would propagate (`.error`). -/
def save_data_with_fallback (ctx : Ctx) (data : PyVal) (filename : String) :
    Except String String :=
  match trySaveStructured data filename with
  | .ok p => .ok p
  | .error e =>
    if e = "TypeError" || e = "ValueError" then
      .ok (save_html_fallback ctx ("save_fail_" ++ filename.replace ".json" "") "save_error")
    else
      .error e

/-- A table row as the extractor sees it: the `td, th` cells in order, each
giving the result of `text_content()` — `Option.none` models a read that
raises (e.g. a stale handle). -/
abbrev TRow := List (Option String)

/-- A rendered table: its `tr` rows. -/
abbrev TTable := List TRow

/-- The rendered detail page as consumed by the extractor: element lookup by
selector (`Option.none` entry value models a `text_content()` that raises;
an absent selector models `query_selector` returning `None`), the page's
tables, and the raw markup from `page.content()`. -/
structure Page where
  elems : List (String × Option String)
  tables : List TTable
  content : String
deriving Repr, DecidableEq

/-- Result of `page.query_selector(sel)` followed by `text_content()`:
outer `none` means no element, inner `none` a raising read. -/
def lookupElem (p : Page) (sel : String) : Option (Option String) :=
  (p.elems.find? (fun e => e.1 == sel)).map (fun e => e.2)

/-- Python `s.strip()` with no arguments: drop whitespace from both ends.
Defined over the character list so that it reduces inside the kernel (the
core string trim goes through byte positions and does not). -/
def pyStrip (s : String) : String :=
  String.mk (((s.data.dropWhile Char.isWhitespace).reverse.dropWhile
    Char.isWhitespace).reverse)

/-- Whether `needle` is a prefix of `hay` (character lists). -/
def startsWithChars : List Char → List Char → Bool
  | [], _ => true
  | _ :: _, [] => false
  | a :: as, b :: bs => a = b && startsWithChars as bs

/-- Whether `needle` occurs somewhere in the character list. -/
def containsChars (needle : List Char) : List Char → Bool
  | [] => startsWithChars needle []
  | c :: rest => startsWithChars needle (c :: rest) || containsChars needle rest

/-- Python `s.lower()`, character by character. -/
def pyLower (s : String) : String := String.mk (s.data.map Char.toLower)

/-- `get_element_text` (lines 579-588): text content of the element if it
exists, stripped; the bare `except` converts a missing element or a raising
read into the empty string. -/
def get_element_text (p : Page) (sel : String) : String :=
  match lookupElem p sel with
  | some (some t) => pyStrip t
  | _ => ""

/-- Python `s.strip(" ,")`: drop spaces and commas from both ends. -/
def stripSpaceComma (s : String) : String :=
  String.mk ((((s.data.dropWhile (fun c => c = ' ' || c = ',')).reverse).dropWhile
    (fun c => c = ' ' || c = ',')).reverse)

/-- The four address selectors used by `extract_office_address` for the given
office type (principal vs registered). -/
def officeSelectors (officeType : String) : String × String × String × String :=
  if officeType = "principal" then
    ("#MainContent_lblPOAddress", "#MainContent_lblPOAddressCity",
     "#MainContent_lblPOAddressState", "#MainContent_lblPOAddressZip")
  else
    ("#MainContent_lblROAddress", "#MainContent_lblROAddressCity",
     "#MainContent_lblROAddressState", "#MainContent_lblROAddressZip")

/-- `extract_office_address` (lines 590-625): assemble the address line and the
`"city, state zip"` line (stripped of stray separators), join the non-empty
parts with `" | "`. Nothing in the body raises in the model, so the outer
`except` is not taken. -/
def extract_office_address (p : Page) (officeType : String) : String :=
  let sels := officeSelectors officeType
  let address1 := get_element_text p sels.1
  let city := get_element_text p sels.2.1
  let state := get_element_text p sels.2.2.1
  let zipCode := get_element_text p sels.2.2.2
  let parts1 := if address1 ≠ "" then [address1] else []
  let parts2 :=
    if city ≠ "" || state ≠ "" || zipCode ≠ "" then
      let location := stripSpaceComma (city ++ ", " ++ state ++ " " ++ zipCode)
      if location ≠ "" then [location] else []
    else []
  let parts := parts1 ++ parts2
  if parts ≠ [] then String.intercalate " | " parts else ""

/-- Extracted attribute mapping: all tier outputs are dicts from attribute
names to strings. -/
abbrev AttrMap := List (String × String)

/-- The fixed attribute/selector table of `extract_by_element_ids`
(lines 486-499), in source order. -/
def elementIdFields : List (String × String) := [
  ("business_id", "#MainContent_lblEntityID"),
  ("business_name", "#MainContent_lblEntityName"),
  ("type", "#MainContent_lblEntityType"),
  ("formation_date", "#MainContent_lblFormationDate"),
  ("jurisdiction", "#MainContent_lblStateOfOrganization"),
  ("status", "#MainContent_lblEntityStatus"),
  ("resident_agent", "#MainContent_lblResidentAgentName"),
  ("last_reporting_year", "#MainContent_lblLastIROnFile"),
  ("next_report_due_date", "#MainContent_lblNextIRDue"),
  ("forfeiture_date", "#MainContent_lblForfeitureDate")]

/-- `extract_by_element_ids` (lines 486-505): the ten direct lookups followed
by the two composite address fields. -/
def extract_by_element_ids (p : Page) : AttrMap :=
  let base := elementIdFields.foldl
    (fun acc kv => assocSet acc kv.1 (get_element_text p kv.2)) []
  let base := assocSet base "principal_office_address" (extract_office_address p "principal")
  assocSet base "registered_office_address" (extract_office_address p "registered")

/-- Substring test (Python `needle in hay`). -/
def containsSub (hay needle : String) : Bool :=
  containsChars needle.data hay.data

/-- The keyword-group `elif` chain of `extract_from_tables` (lines 523-542):
which attribute a lower-cased row label selects, first matching group wins
within the row. -/
def matchLabel (label : String) : Option String :=
  let ll := pyLower label
  if containsSub ll "business id" || containsSub ll "entity id" then some "business_id"
  else if containsSub ll "business name" || containsSub ll "entity name" then some "business_name"
  else if containsSub ll "entity type" || containsSub ll "type" then some "type"
  else if containsSub ll "formation date" then some "formation_date"
  else if containsSub ll "jurisdiction" then some "jurisdiction"
  else if containsSub ll "status" then some "status"
  else if containsSub ll "resident agent" then some "resident_agent"
  else if containsSub ll "last report" then some "last_reporting_year"
  else if containsSub ll "next report" then some "next_report_due_date"
  else if containsSub ll "forfeiture" then some "forfeiture_date"
  else Option.none

/-- One loop body iteration of `extract_from_tables` (lines 515-542) on a row:
rows with fewer than two cells are skipped; reading a cell's text content may
raise (`.error`, carrying the mapping accumulated so far, which the enclosing
`except` hands back); a non-empty label/value pair is dispatched through the
keyword chain, assignment overwriting any earlier value for the attribute. -/
def scanRow (acc : AttrMap) : TRow → Except AttrMap AttrMap
  | c0 :: c1 :: _ =>
    match c0 with
    | Option.none => .error acc
    | some l =>
      match c1 with
      | Option.none => .error acc
      | some v =>
        let label := (pyStrip l)
        let value := (pyStrip v)
        if label ≠ "" && value ≠ "" then
          match matchLabel label with
          | some k => .ok (assocSet acc k value)
          | Option.none => .ok acc
        else .ok acc
  | _ => .ok acc

/-- The row loop of `extract_from_tables` over one table. -/
def scanRows (acc : AttrMap) : List TRow → Except AttrMap AttrMap
  | [] => .ok acc
  | r :: rs =>
    match scanRow acc r with
    | .ok acc2 => scanRows acc2 rs
    | .error a => .error a

/-- The table loop of `extract_from_tables` over all page tables. -/
def scanTables (acc : AttrMap) : List TTable → Except AttrMap AttrMap
  | [] => .ok acc
  | t :: ts =>
    match scanRows acc t with
    | .ok acc2 => scanTables acc2 ts
    | .error a => .error a

/-- `extract_from_tables` (lines 507-546): scan every table row; the single
`try` wraps the whole loop nest, so the first raising cell read ends the scan
and the `except` falls through to `return table_data` with whatever was
accumulated. -/
def extract_from_tables (p : Page) : AttrMap :=
  match scanTables [] p.tables with
  | .ok d => d
  | .error d => d

/-- Case-insensitive literal match at the head of `s`; returns the rest. -/
def litAt : List Char → List Char → Option (List Char)
  | [], s => some s
  | _ :: _, [] => Option.none
  | l :: ls, c :: cs => if l.toLower = c.toLower then litAt ls cs else Option.none

/-- The `[^>]*>` part of the extraction regexes: skip to just past the first
`>`; fails if none remains. -/
def afterGt : List Char → Option (List Char)
  | [] => Option.none
  | c :: cs => if c = '>' then some cs else afterGt cs

/-- Match one extraction pattern `LITERAL[^>]*>([^<]+)` (case-insensitive) at
the start of `s`, returning the captured group. -/
def matchPatAt (lit : List Char) (s : List Char) : Option String :=
  match litAt lit s with
  | Option.none => Option.none
  | some r1 =>
    match afterGt r1 with
    | Option.none => Option.none
    | some r2 =>
      let cap := r2.takeWhile (fun c => c ≠ '<')
      if cap.isEmpty then Option.none else some (String.mk cap)

/-- `re.search` for the extraction patterns: leftmost start position at which
the pattern matches. -/
def reSearch (lit : List Char) : List Char → Option String
  | [] => matchPatAt lit []
  | c :: rest =>
    match matchPatAt lit (c :: rest) with
    | some r => some r
    | Option.none => reSearch lit rest

/-- The pattern table of `extract_from_page_text` (lines 554-565), in source
order; each pattern is `LITERAL[^>]*>([^<]+)` searched case-insensitively. -/
def textPatterns : List (String × List String) := [
  ("business_id", ["Business ID", "Entity ID"]),
  ("business_name", ["Business Name", "Entity Name"]),
  ("type", ["Entity Type", "Type"]),
  ("formation_date", ["Formation Date"]),
  ("jurisdiction", ["Jurisdiction"]),
  ("status", ["Status"]),
  ("resident_agent", ["Resident Agent"]),
  ("last_reporting_year", ["Last Report"]),
  ("next_report_due_date", ["Next Report"]),
  ("forfeiture_date", ["Forfeiture Date"])]

/-- Per-field pattern loop (lines 567-572): first matching pattern wins, its
captured group is stripped and assigned; later patterns are not tried. -/
def firstPatMatch (content : List Char) : List String → Option String
  | [] => Option.none
  | lit :: rest =>
    match reSearch lit.data content with
    | some cap => some (pyStrip cap)
    | Option.none => firstPatMatch content rest

/-- `extract_from_page_text` (lines 548-577): run the pattern table over the
raw page markup; fields with no matching pattern stay absent. Reading
`page.content()` is modelled as total, so the `except` is not taken. -/
def extract_from_page_text (p : Page) : AttrMap :=
  textPatterns.foldl
    (fun acc fp =>
      match firstPatMatch p.content.data fp.2 with
      | some v => assocSet acc fp.1 v
      | Option.none => acc) []

/-- `d.get(k)` collapsed to a string: empty for a missing key, so that
`if not d.get(k)` is exactly `getStr d k = ""`. -/
def getStr (d : AttrMap) (k : String) : String :=
  (assocGet d k).getD ""

/-- The tier cascade of `extract_business_details_robust` (lines 438-448),
instrumented with the list of tiers actually executed: tier 2 runs only when
tier 1 yielded no `business_name`, tier 3 only when the mapping still has
none; a lower tier's result replaces the previous mapping wholesale. -/
def extractTiers (p : Page) : AttrMap × List Nat :=
  let d1 := extract_by_element_ids p
  if getStr d1 "business_name" ≠ "" then (d1, [1])
  else
    let d2 := extract_from_tables p
    if getStr d2 "business_name" ≠ "" then (d2, [1, 2])
    else (extract_from_page_text p, [1, 2, 3])

/-- View an attribute mapping as the Python dict it is. -/
def attrToPy (d : AttrMap) : PyVal :=
  .dict (d.map (fun kv => (kv.1, PyVal.str kv.2)))

/-- `extract_business_details_robust` (lines 434-484): run the tier cascade;
with both essentials present hand the mapping to `safe_extract_json_data`,
else hand it the `data_extraction_failed` record of lines 462-468 carrying
the raw markup. Nothing in the modelled body raises, so the
`extraction_error` handler of lines 474-484 is unreachable. -/
def extract_business_details_robust (ctx : Ctx) (p : Page) (search_term : String) : PyVal :=
  let bd := (extractTiers p).1
  if getStr bd "business_name" ≠ "" && getStr bd "business_id" ≠ "" then
    (safe_extract_json_data ctx (attrToPy bd) search_term).1
  else
    let errRecord := PyVal.dict [
      ("html_content", .str p.content),
      ("error", .str "Essential data missing"),
      ("timestamp", .str ctx.iso),
      ("search_term", .str search_term),
      ("status", .str "data_extraction_failed")]
    (safe_extract_json_data ctx errRecord search_term).1

/-- Python `\w` on the ASCII range: letters, digits and underscore. -/
def isWordChar (c : Char) : Bool := c.isAlphanum || c = '_'

/-- What `re.sub(r'[^\w]', '_', s)` does to one character. -/
def replChar (c : Char) : Char := if isWordChar c then c else '_'

/-- `re.sub(r'[^\w]', '_', s)` (line 702): every non-word character is
replaced by one underscore — the pattern matches single characters, so a run
of k non-word characters becomes k underscores. -/
def reSubNonWord (s : String) : String := String.mk (s.data.map replChar)

/-- The sanitized identifier of line 702: substitute, then slice `[:30]`. -/
def cleanName (s : String) : String := String.mk ((reSubNonWord s).data.take 30)

/-- Run-collapsing worker: the flag records whether we are inside a run of
non-word characters already represented by a filler. -/
def collapseRunsAux : Bool → List Char → List Char
  | _, [] => []
  | inRun, c :: rest =>
    if isWordChar c then c :: collapseRunsAux false rest
    else if inRun then collapseRunsAux true rest
    else '_' :: collapseRunsAux true rest

/-- Follows the spec's words for claim C6: collapse each RUN of non-word
characters to a single filler character. Stated only to be compared with
`cleanName`, the definition translated from the source. -/
def collapseRuns (l : List Char) : List Char := collapseRunsAux false l

/-- Follows the spec's words for claim C6: run-collapsing sanitizer with the
same 30-character bound. -/
def cleanNameSpec (s : String) : String := String.mk ((collapseRuns s.data).take 30)

/-- The per-entity artifact name of lines 701-706: derived from the sanitized
business name when one is present and non-empty, else an error name carrying
the search term and a `%H%M%S` stamp. (In the source a truthy non-string
`business_name` would make `re.sub` raise; every record this program builds
carries string values, so that branch is not modelled.) -/
def individualFilename (details : PyVal) (search_term : String) (hms : String) : String :=
  match pyDictGet details "business_name" with
  | some (.str s) =>
    if s ≠ "" then "json/business_" ++ cleanName s ++ ".json"
    else "json/error_" ++ search_term ++ "_" ++ hms ++ ".json"
  | _ => "json/error_" ++ search_term ++ "_" ++ hms ++ ".json"

/-- The fixed search-term list of line 644. -/
def searchTerms : List String := ["AA", "AAB", "AAC", "LLC", "INC", "CORP", "SERVICE", "KANSAS"]

/-- One entry of `extract_business_links_from_results`: display name, id and
the recorded row index used to re-resolve the row later. -/
structure Business where
  name : String
  business_id : String
  row_index : Nat
deriving Repr, DecidableEq

/-- The world the coordinator drives, scripted per stage: outcome of the
navigation bootstrap, of search setup/submission per term, the resolved
result rows per term, the outcome of each row click, the rendered detail page
behind each clicked row, and the outcome of each return-to-results step.
Every stage is fallible; the environment decides which calls fail. -/
structure CrawlEnv where
  ctx : Ctx
  bootstrapOk : Bool
  setupOk : String → Bool
  searchOk : String → Bool
  results : String → List Business
  clickOk : String → Nat → Bool
  detailPage : String → Nat → Page
  returnOk : String → Nat → Bool

/-- The per-row loop of lines 691-728 over the first three result rows:
a failed click skips to the next row; after a successful click the details
are extracted and persisted, a `success` status increments the collected
count, and (except after the last row) a failed return-to-results breaks out
of the row loop for this term. -/
def rowLoop (env : CrawlEnv) (term : String) : List (Nat × Business) → Nat → Nat
  | [], acc => acc
  | (i, _) :: rest, acc =>
    if env.clickOk term i then
      let details := extract_business_details_robust env.ctx (env.detailPage term i) term
      if pyTruthy details && details.isDict then
        let fname := individualFilename details term env.ctx.hms
        let _ := save_data_with_fallback env.ctx details fname
        let acc2 := if pyGetStr details "status" = some "success" then acc + 1 else acc
        if rest.isEmpty then acc2
        else if env.returnOk term i then rowLoop env term rest acc2
        else acc2
      else rowLoop env term rest acc
    else rowLoop env term rest acc

/-- One search-term pass of lines 657-742: a failed setup, a failed search
submission or an empty result list each end the term with `continue`;
otherwise the first three rows are processed. Returns the number of records
collected for the term. -/
def processTerm (env : CrawlEnv) (term : String) : Nat :=
  if !env.setupOk term then 0
  else if !env.searchOk term then 0
  else
    let businesses := env.results term
    if businesses.isEmpty then 0
    else rowLoop env term (businesses.take 3).enum 0

/-- `run_fully_automated_crawler` (lines 642-800): abort outright when the
navigation bootstrap fails (line 653-655); otherwise drive every search term
in order, accumulating the collected count. Result: whether the crawl
aborted, the terms attempted, and the total collected. -/
def run_fully_automated_crawler (env : CrawlEnv) : Bool × List String × Nat :=
  if !env.bootstrapOk then (true, [], 0)
  else
    let r := searchTerms.foldl
      (fun (acc : List String × Nat) term => (acc.1 ++ [term], acc.2 + processTerm env term))
      ([], 0)
    (false, r.1, r.2)

/-- Whether both cell reads of a row with at least two cells succeed. -/
def rowClean : TRow → Bool
  | c0 :: c1 :: _ => c0.isSome && c1.isSome
  | _ => true

/-- Pure effect of one row on the accumulated mapping (the `.ok`/`.error`
payload of `scanRow` coincide, so this is total). -/
def applyRow (acc : AttrMap) (r : TRow) : AttrMap :=
  match scanRow acc r with
  | .ok d => d
  | .error d => d

/-- The attribute/value hit a clean row contributes, if any. -/
def rowKV : TRow → Option (String × String)
  | some l :: some v :: _ =>
    let label := (pyStrip l)
    let value := (pyStrip v)
    if label ≠ "" && value ≠ "" then (matchLabel label).map (fun k => (k, value))
    else Option.none
  | _ => Option.none

/-- Follows the spec's words for claim C4 (first match wins per attribute,
later rows do not overwrite an already-set attribute): the same row dispatch,
but assignment is skipped when the attribute is already set. Stated only to
be compared with `scanRow`. -/
def scanRowFirstWins (acc : AttrMap) : TRow → Except AttrMap AttrMap
  | c0 :: c1 :: _ =>
    match c0 with
    | Option.none => .error acc
    | some l =>
      match c1 with
      | Option.none => .error acc
      | some v =>
        let label := (pyStrip l)
        let value := (pyStrip v)
        if label ≠ "" && value ≠ "" then
          match matchLabel label with
          | some k => .ok (if (assocGet acc k).isSome then acc else assocSet acc k value)
          | Option.none => .ok acc
        else .ok acc
  | _ => .ok acc

/-- Row loop of the first-match-wins table scan. -/
def scanRowsFirstWins (acc : AttrMap) : List TRow → Except AttrMap AttrMap
  | [] => .ok acc
  | r :: rs =>
    match scanRowFirstWins acc r with
    | .ok acc2 => scanRowsFirstWins acc2 rs
    | .error a => .error a

/-- Table loop of the first-match-wins table scan. -/
def scanTablesFirstWins (acc : AttrMap) : List TTable → Except AttrMap AttrMap
  | [] => .ok acc
  | t :: ts =>
    match scanRowsFirstWins acc t with
    | .ok acc2 => scanTablesFirstWins acc2 ts
    | .error a => .error a

/-- Follows the spec's words for claim C4: table scan in which the first
matching row fixes each attribute. -/
def extract_from_tables_firstWins (p : Page) : AttrMap :=
  match scanTablesFirstWins [] p.tables with
  | .ok d => d
  | .error d => d

/-- Follows the spec's words for claim C8 (a failing per-attribute lookup
yields an empty string for that attribute and extraction proceeds to the
remaining attributes): a raising cell read contributes an empty string, and
the scan continues with the remaining rows. Stated only to be compared with
`extract_from_tables`. -/
def applyRowResilient (acc : AttrMap) : TRow → AttrMap
  | c0 :: c1 :: _ =>
    let label := pyStrip (c0.getD "")
    let value := pyStrip (c1.getD "")
    if label ≠ "" && value ≠ "" then
      match matchLabel label with
      | some k => assocSet acc k value
      | Option.none => acc
    else acc
  | _ => acc

/-- Follows the spec's words for claim C8: table scan that survives raising
cell reads and keeps going. -/
def extract_from_tables_resilient (p : Page) : AttrMap :=
  p.tables.foldl (fun acc t => t.foldl applyRowResilient acc) []

/-- Payload of a table-scan result, whether the scan finished or was cut
short by a raising cell read (the `except` hands back the same mapping). -/
def exPayload : Except AttrMap AttrMap → AttrMap
  | .ok d => d
  | .error d => d

/-- A fixed clock for concrete runs. -/
def ctx0 : Ctx := ⟨"20240101_000000", "000000", "2024-01-01T00:00:00"⟩

/-- A second clock with a different timestamp, for collision questions. -/
def ctx1 : Ctx := ⟨"20240102_120000", "120000", "2024-01-02T12:00:00"⟩

/-- A detail page with no recognizable elements, tables or markup: every
extraction tier comes back empty. -/
def emptyPage : Page := ⟨[], [], ""⟩

/-- A page whose single table holds two rows that both match the
`business_id` keyword group, with different values. -/
def twoIdPage : Page :=
  ⟨[], [[[some "Entity ID", some "111"], [some "Business ID", some "222"]]], ""⟩

/-- A page whose single table has a first row with a raising cell read and a
second row carrying the entity name. -/
def staleRowPage : Page :=
  ⟨[], [[[Option.none, some "x"], [some "Entity Name", some "Acme"]]], ""⟩

/-- A record with business name `Acme`, as the coordinator would persist. -/
def acmeRecord : PyVal := PyVal.dict [("business_name", PyVal.str "Acme")]

/-- A candidate record holding a live element handle: `json.dumps` rejects
it. -/
def handleRecord : PyVal := PyVal.dict [("handle", PyVal.obj "ElementHandle")]

/-! Shared lemmas about the dict model. -/

theorem assocGet_assocSet_self {α : Type} (d : List (String × α)) (k : String) (v : α) :
    assocGet (assocSet d k v) k = some v := by
  induction d with
  | nil => simp [assocGet, assocSet]
  | cons hd tl ih =>
    obtain ⟨a, b⟩ := hd
    by_cases hak : a = k
    · subst hak
      simp [assocSet, assocGet]
    · simp [assocSet, hak, assocGet, ih]

theorem assocGet_assocSet_ne {α : Type} (d : List (String × α)) (k k' : String) (v : α)
    (h : k ≠ k') : assocGet (assocSet d k v) k' = assocGet d k' := by
  induction d with
  | nil => simp [assocGet, assocSet, h]
  | cons hd tl ih =>
    obtain ⟨a, b⟩ := hd
    by_cases hak : a = k
    · subst hak
      simp [assocSet, assocGet, h]
    · simp [assocSet, hak, assocGet, ih]

theorem assocSet_ne_nil {α : Type} (d : List (String × α)) (k : String) (v : α) :
    assocSet d k v ≠ [] := by
  cases d with
  | nil => simp [assocSet]
  | cons hd tl =>
    obtain ⟨a, b⟩ := hd
    by_cases hak : a = k <;> simp [assocSet, hak]

theorem assocGet_map_str (d : AttrMap) (k : String) :
    assocGet (d.map (fun kv => (kv.1, PyVal.str kv.2))) k = (assocGet d k).map PyVal.str := by
  induction d with
  | nil => simp [assocGet]
  | cons hd tl ih =>
    obtain ⟨a, b⟩ := hd
    by_cases hak : a = k <;> simp [assocGet, hak, ih]

theorem serKVs_map_str (d : AttrMap) :
    serKVs (d.map (fun kv => (kv.1, PyVal.str kv.2))) = true := by
  induction d with
  | nil => simp [serKVs]
  | cons hd tl ih => simp [serKVs, serB, ih]

theorem serKVs_assocSet_str (kvs : List (String × PyVal)) (k s : String)
    (h : serKVs kvs = true) : serKVs (assocSet kvs k (PyVal.str s)) = true := by
  induction kvs with
  | nil => simp [assocSet, serKVs, serB]
  | cons hd tl ih =>
    obtain ⟨a, b⟩ := hd
    simp [serKVs] at h
    by_cases hak : a = k
    · simp [assocSet, hak, serKVs, serB, h.2]
    · simp [assocSet, hak, serKVs, serB, h.1, ih h.2]

theorem serB_withMeta_dict (ctx : Ctx) (kvs : List (String × PyVal)) (term : String)
    (h : serKVs kvs = true) : serB (withMeta ctx (PyVal.dict kvs) term) = true := by
  simp only [withMeta, serB]
  exact serKVs_assocSet_str _ _ _ (serKVs_assocSet_str _ _ _ (serKVs_assocSet_str _ _ _ h))

theorem serB_withMeta_attr (ctx : Ctx) (d : AttrMap) (term : String) :
    serB (withMeta ctx (attrToPy d) term) = true :=
  serB_withMeta_dict ctx _ term (serKVs_map_str d)

/-! Lemmas about the table scan. -/

theorem scanRow_clean (acc : AttrMap) (r : TRow) (h : rowClean r = true) :
    scanRow acc r = .ok (applyRow acc r) := by
  match r with
  | [] => rfl
  | [c] => rfl
  | c0 :: c1 :: rest =>
    simp [rowClean] at h
    obtain ⟨l, hl⟩ := Option.isSome_iff_exists.mp h.1
    obtain ⟨v, hv⟩ := Option.isSome_iff_exists.mp h.2
    subst hl hv
    simp only [scanRow, applyRow]
    split
    · split <;> rfl
    · rfl

theorem applyRow_eq_rowKV (acc : AttrMap) (r : TRow) (h : rowClean r = true) :
    applyRow acc r = match rowKV r with
      | some kv => assocSet acc kv.1 kv.2
      | Option.none => acc := by
  match r with
  | [] => rfl
  | [c] => cases c <;> rfl
  | c0 :: c1 :: rest =>
    simp [rowClean] at h
    obtain ⟨l, hl⟩ := Option.isSome_iff_exists.mp h.1
    obtain ⟨v, hv⟩ := Option.isSome_iff_exists.mp h.2
    subst hl hv
    unfold applyRow scanRow rowKV
    cases hb : decide ((pyStrip l) ≠ "") && decide ((pyStrip v) ≠ "")
    · have hnp : ¬((decide ((pyStrip l) ≠ "") && decide ((pyStrip v) ≠ "")) = true) := by
        simp only [hb]
        exact Bool.false_ne_true
      simp only [if_neg hnp]
    · simp only [if_pos hb]
      cases hm : matchLabel (pyStrip l) <;> simp [hm]

theorem scanRow_raising (acc : AttrMap) (r : TRow) (h : rowClean r = false) :
    scanRow acc r = .error acc := by
  match r with
  | [] => simp [rowClean] at h
  | [c] => simp [rowClean] at h
  | c0 :: c1 :: rest =>
    simp [rowClean] at h
    match c0 with
    | Option.none => rfl
    | some l =>
      simp at h
      match c1, h with
      | Option.none, _ => rfl

theorem scanRows_clean (rows : List TRow) (acc : AttrMap)
    (h : ∀ r ∈ rows, rowClean r = true) :
    scanRows acc rows = .ok (rows.foldl applyRow acc) := by
  induction rows generalizing acc with
  | nil => rfl
  | cons r rs ih =>
    have hr := h r (List.mem_cons_self r rs)
    simp only [scanRows, scanRow_clean acc r hr, List.foldl_cons]
    exact ih (applyRow acc r) (fun x hx => h x (List.mem_cons_of_mem r hx))

theorem scanTables_clean (ts : List TTable) (acc : AttrMap)
    (h : ∀ t ∈ ts, ∀ r ∈ t, rowClean r = true) :
    scanTables acc ts = .ok (ts.foldl (fun a t => t.foldl applyRow a) acc) := by
  induction ts generalizing acc with
  | nil => rfl
  | cons t ts2 ih =>
    have ht := h t (List.mem_cons_self t ts2)
    simp only [scanTables, scanRows_clean t acc ht, List.foldl_cons]
    exact ih (t.foldl applyRow acc) (fun x hx => h x (List.mem_cons_of_mem t hx))

theorem scanRows_raising (pre : List TRow) (bad : TRow) (post : List TRow)
    (hbad : rowClean bad = false) :
    ∀ acc, (∀ r ∈ pre, rowClean r = true) →
      scanRows acc (pre ++ bad :: post) = .error (pre.foldl applyRow acc) := by
  induction pre with
  | nil =>
    intro acc _
    simp [scanRows, scanRow_raising acc bad hbad]
  | cons r rs ih =>
    intro acc hpre
    have hr := hpre r (List.mem_cons_self r rs)
    simp only [List.cons_append, scanRows, scanRow_clean acc r hr, List.foldl_cons]
    exact ih (applyRow acc r) (fun x hx => hpre x (List.mem_cons_of_mem r hx))

/-! Which attributes each lower tier can produce. -/

set_option maxHeartbeats 1000000 in
theorem matchLabel_mem (l k : String) (h : matchLabel l = some k) :
    k ∈ ["business_id", "business_name", "type", "formation_date", "jurisdiction",
      "status", "resident_agent", "last_reporting_year", "next_report_due_date",
      "forfeiture_date"] := by
  simp only [matchLabel] at h
  split_ifs at h
  all_goals first
    | exact Option.noConfusion h
    | (rw [Option.some.injEq] at h; subst h; decide)

theorem applyRow_get_other (k : String) (hk : ∀ l, matchLabel l ≠ some k)
    (acc : AttrMap) (r : TRow) :
    assocGet (exPayload (scanRow acc r)) k = assocGet acc k := by
  match r with
  | [] => rfl
  | [c] => cases c <;> rfl
  | c0 :: c1 :: rest =>
    cases c0 with
    | none => rfl
    | some l =>
      cases c1 with
      | none => rfl
      | some v =>
        unfold scanRow
        by_cases hb : (decide ((pyStrip l) ≠ "") && decide ((pyStrip v) ≠ "")) = true
        · simp only [if_pos hb]
          cases hm : matchLabel (pyStrip l) with
          | none => rfl
          | some k0 =>
            simp only [exPayload]
            exact assocGet_assocSet_ne acc k0 k (pyStrip v) (fun he => hk (pyStrip l) (he ▸ hm))
        · simp only [if_neg hb]
          rfl

theorem scanRows_get_other (k : String) (hk : ∀ l, matchLabel l ≠ some k) :
    ∀ (rows : List TRow) (acc : AttrMap),
    assocGet (exPayload (scanRows acc rows)) k = assocGet acc k := by
  intro rows
  induction rows with
  | nil => intro acc; rfl
  | cons r rs ih =>
    intro acc
    unfold scanRows
    cases hsr : scanRow acc r with
    | ok acc2 =>
      have h2 : assocGet acc2 k = assocGet acc k := by
        have h0 := applyRow_get_other k hk acc r
        rw [hsr] at h0
        exact h0
      exact (ih acc2).trans h2
    | error a =>
      have h0 := applyRow_get_other k hk acc r
      rw [hsr] at h0
      simpa [exPayload] using h0

theorem scanTables_get_other (k : String) (hk : ∀ l, matchLabel l ≠ some k) :
    ∀ (ts : List TTable) (acc : AttrMap),
    assocGet (exPayload (scanTables acc ts)) k = assocGet acc k := by
  intro ts
  induction ts with
  | nil => intro acc; rfl
  | cons t ts2 ih =>
    intro acc
    unfold scanTables
    cases hsr : scanRows acc t with
    | ok acc2 =>
      have h2 : assocGet acc2 k = assocGet acc k := by
        have h0 := scanRows_get_other k hk t acc
        rw [hsr] at h0
        exact h0
      exact (ih acc2).trans h2
    | error a =>
      have h0 := scanRows_get_other k hk t acc
      rw [hsr] at h0
      simpa [exPayload] using h0

theorem extract_from_tables_get_other (p : Page) (k : String)
    (hk : ∀ l, matchLabel l ≠ some k) :
    assocGet (extract_from_tables p) k = Option.none := by
  have h0 := scanTables_get_other k hk p.tables []
  unfold extract_from_tables
  cases hst : scanTables [] p.tables with
  | ok d =>
    rw [hst] at h0
    simpa [exPayload, assocGet] using h0
  | error d =>
    rw [hst] at h0
    simpa [exPayload, assocGet] using h0

theorem foldPat_get_other (content : List Char) (k : String) :
    ∀ (fps : List (String × List String)) (acc : AttrMap),
    (∀ fp ∈ fps, fp.1 ≠ k) →
    assocGet (fps.foldl (fun acc2 fp =>
      match firstPatMatch content fp.2 with
      | some v => assocSet acc2 fp.1 v
      | Option.none => acc2) acc) k = assocGet acc k := by
  intro fps
  induction fps with
  | nil => intro acc _; rfl
  | cons fp fps2 ih =>
    intro acc hks
    simp only [List.foldl_cons]
    rw [ih _ (fun x hx => hks x (List.mem_cons_of_mem fp hx))]
    cases hm : firstPatMatch content fp.2 with
    | none => rfl
    | some v =>
      simp only [hm]
      exact assocGet_assocSet_ne acc fp.1 k v (hks fp (List.mem_cons_self fp fps2))

theorem crawlFold_attempted (env : CrawlEnv) :
    ∀ (l : List String) (acc : List String) (n : Nat),
    (l.foldl (fun (a : List String × Nat) term =>
      (a.1 ++ [term], a.2 + processTerm env term)) (acc, n)).1 = acc ++ l := by
  intro l
  induction l with
  | nil =>
    intro acc n
    simp
  | cons t ts ih =>
    intro acc n
    simp only [List.foldl_cons]
    rw [ih]
    simp

theorem withMeta_get_ne (ctx : Ctx) (kvs : List (String × PyVal)) (term k : String)
    (h1 : k ≠ "search_term") (h2 : k ≠ "extracted_at") (h3 : k ≠ "status") :
    pyDictGet (withMeta ctx (PyVal.dict kvs) term) k = assocGet kvs k := by
  simp only [withMeta, pyDictGet]
  rw [assocGet_assocSet_ne _ _ _ _ (Ne.symm h3), assocGet_assocSet_ne _ _ _ _ (Ne.symm h2),
    assocGet_assocSet_ne _ _ _ _ (Ne.symm h1)]

theorem extract_from_tables_clean (p : Page)
    (h : ∀ t ∈ p.tables, ∀ r ∈ t, rowClean r = true) :
    extract_from_tables p = p.tables.foldl (fun a t => t.foldl applyRow a) [] := by
  unfold extract_from_tables
  rw [scanTables_clean p.tables [] h]

theorem robust_get_none (ctx : Ctx) (p : Page) (term k : String)
    (h1 : k ≠ "search_term") (h2 : k ≠ "extracted_at") (h3 : k ≠ "status")
    (h4 : k ≠ "html_content") (h5 : k ≠ "error") (h6 : k ≠ "timestamp")
    (hbd : assocGet (extractTiers p).1 k = Option.none) :
    pyDictGet (extract_business_details_robust ctx p term) k = Option.none := by
  simp only [extract_business_details_robust]
  split
  · simp only [safe_extract_json_data]
    rw [if_pos (serB_withMeta_attr ctx _ term)]
    simp only [attrToPy]
    rw [withMeta_get_ne ctx _ term k h1 h2 h3, assocGet_map_str, hbd]
    rfl
  · simp only [safe_extract_json_data]
    have hs : serKVs [("html_content", PyVal.str p.content),
        ("error", PyVal.str "Essential data missing"),
        ("timestamp", PyVal.str ctx.iso),
        ("search_term", PyVal.str term),
        ("status", PyVal.str "data_extraction_failed")] = true := rfl
    rw [if_pos (serB_withMeta_dict ctx _ term hs)]
    rw [withMeta_get_ne ctx _ term k h1 h2 h3]
    simp only [assocGet]
    rw [if_neg (Ne.symm h4), if_neg (Ne.symm h5), if_neg (Ne.symm h6),
      if_neg (Ne.symm h1), if_neg (Ne.symm h3)]

theorem append_ne_empty_left (a b : String) (h : a ≠ "") : a ++ b ≠ "" := by
  intro he
  apply h
  have hd := congrArg String.data he
  rw [String.data_append] at hd
  have h0 : a.data = [] := (List.append_eq_nil.mp hd).1
  ext1
  exact h0

theorem append_ne_empty_right (a b : String) (h : b ≠ "") : a ++ b ≠ "" := by
  intro he
  apply h
  have hd := congrArg String.data he
  rw [String.data_append] at hd
  have h0 : b.data = [] := (List.append_eq_nil.mp hd).2
  ext1
  exact h0

theorem save_html_fallback_ne_empty (ctx : Ctx) (fnamePre errType : String) :
    save_html_fallback ctx fnamePre errType ≠ "" := by
  unfold save_html_fallback
  exact append_ne_empty_right _ _ (by decide)

theorem trySave_error_class (data : PyVal) (filename e : String)
    (h : trySaveStructured data filename = .error e) : e = "TypeError" := by
  cases data with
  | dict kvs =>
    simp only [trySaveStructured] at h
    cases hg : assocGet kvs "html_content" with
    | none =>
      rw [hg] at h
      split_ifs at h <;> simp_all
    | some v =>
      rw [hg] at h
      cases v <;> simp_all
  | none => simp only [trySaveStructured] at h; split_ifs at h <;> simp_all
  | bool b => simp only [trySaveStructured] at h; split_ifs at h <;> simp_all
  | int n => simp only [trySaveStructured] at h; split_ifs at h <;> simp_all
  | str s => simp only [trySaveStructured] at h; split_ifs at h <;> simp_all
  | list xs => simp only [trySaveStructured] at h; split_ifs at h <;> simp_all
  | obj t => simp only [trySaveStructured] at h; split_ifs at h <;> simp_all

theorem trySave_ok_val (data : PyVal) (filename p : String)
    (h : trySaveStructured data filename = .ok p) : p = outputDir ++ "/" ++ filename := by
  cases data with
  | dict kvs =>
    simp only [trySaveStructured] at h
    cases hg : assocGet kvs "html_content" with
    | none =>
      rw [hg] at h
      split_ifs at h <;> simp_all
    | some v =>
      rw [hg] at h
      cases v <;> simp_all
  | none => simp only [trySaveStructured] at h; split_ifs at h <;> simp_all
  | bool b => simp only [trySaveStructured] at h; split_ifs at h <;> simp_all
  | int n => simp only [trySaveStructured] at h; split_ifs at h <;> simp_all
  | str s => simp only [trySaveStructured] at h; split_ifs at h <;> simp_all
  | list xs => simp only [trySaveStructured] at h; split_ifs at h <;> simp_all
  | obj t => simp only [trySaveStructured] at h; split_ifs at h <;> simp_all

/-! The claims. -/

/-- Claim C1 (code-bug evidence): on a detail page with no extractable data,
`extract_business_details_robust` builds the error record of lines 462-468
with `status='data_extraction_failed'`, but `safe_extract_json_data`
unconditionally overwrites the status of every dict with `'success'`
(line 104). The returned record therefore carries `status='success'` while
holding no `business_id` or `business_name` key at all, violating the
invariant that `success` implies both present and non-empty. -/
theorem C1_success_without_essentials :
    pyGetStr (extract_business_details_robust ctx0 emptyPage "AA") "status" = some "success" ∧
    pyDictGet (extract_business_details_robust ctx0 emptyPage "AA") "business_name" = Option.none ∧
    pyDictGet (extract_business_details_robust ctx0 emptyPage "AA") "business_id" = Option.none :=
  ⟨rfl, rfl, rfl⟩

/-- Claim C2: for every input record and destination filename,
`save_data_with_fallback` never raises to its caller (the result is always
`.ok`, the `except (TypeError, ValueError)` clause covering every exception
the `try` body can produce) and the returned artifact location is non-empty,
including when the record cannot be JSON-serialized. File writes themselves
are modelled as succeeding. -/
theorem C2_persist_never_raises (ctx : Ctx) (data : PyVal) (filename : String) :
    ∃ s, save_data_with_fallback ctx data filename = .ok s ∧ s ≠ "" := by
  unfold save_data_with_fallback
  cases ht : trySaveStructured data filename with
  | ok p =>
    refine ⟨p, rfl, ?_⟩
    rw [trySave_ok_val data filename p ht]
    exact append_ne_empty_left _ _ (append_ne_empty_left _ _ (by decide))
  | error e =>
    have he := trySave_error_class data filename e ht
    subst he
    exact ⟨save_html_fallback ctx ("save_fail_" ++ filename.replace ".json" "") "save_error",
      rfl, save_html_fallback_ne_empty _ _ _⟩

/-- Claim C3: the tier cascade of `extract_business_details_robust` is a
strict priority short-circuit — the table-scan tier runs exactly when the
direct-locator tier produced no `business_name`, and the text-pattern tier
exactly when the table scan also produced none; a non-empty tier-1
`business_name` means tiers 2 and 3 are never executed. -/
theorem C3_tier_short_circuit (p : Page) :
    ((extractTiers p).2 = [1] ↔ getStr (extract_by_element_ids p) "business_name" ≠ "") ∧
    ((extractTiers p).2 = [1, 2] ↔ (getStr (extract_by_element_ids p) "business_name" = "" ∧
      getStr (extract_from_tables p) "business_name" ≠ "")) ∧
    ((extractTiers p).2 = [1, 2, 3] ↔ (getStr (extract_by_element_ids p) "business_name" = "" ∧
      getStr (extract_from_tables p) "business_name" = "")) := by
  unfold extractTiers
  by_cases h1 : getStr (extract_by_element_ids p) "business_name" = ""
  · by_cases h2 : getStr (extract_from_tables p) "business_name" = ""
    · simp [h1, h2]
    · simp [h1, h2]
  · simp [h1]

/-- Claim C4 (counterexample): a table with the rows
`("Entity ID", "111")` then `("Business ID", "222")` — both matching the
`business_id` keyword group — yields `business_id = "222"` from the source's
`extract_from_tables`: the assignment at line 524 is unconditional, so the
LATER row overwrites the earlier one, while the spec-worded first-match-wins
scan yields `"111"`. -/
theorem C4_later_row_overwrites :
    assocGet (extract_from_tables twoIdPage) "business_id" = some "222" ∧
    assocGet (extract_from_tables_firstWins twoIdPage) "business_id" = some "111" ∧
    extract_from_tables twoIdPage ≠ extract_from_tables_firstWins twoIdPage :=
  ⟨rfl, rfl, by decide⟩

/-- Claim C4 (amended): in the table-scan tier the LAST matching row
determines an attribute's value — appending a clean row that matches
attribute `k` with value `v` makes the extracted value of `k` equal to `v`,
overwriting whatever earlier rows had assigned. -/
theorem C4_last_match_wins (es : List (String × Option String)) (content : String)
    (rows : List TRow) (r : TRow) (k v : String)
    (hrows : ∀ x ∈ rows, rowClean x = true) (hr : rowClean r = true)
    (hkv : rowKV r = some (k, v)) :
    assocGet (extract_from_tables ⟨es, [rows ++ [r]], content⟩) k = some v := by
  have hclean : ∀ t ∈ [rows ++ [r]], ∀ x ∈ t, rowClean x = true := by
    intro t ht x hx
    simp only [List.mem_singleton] at ht
    subst ht
    rcases List.mem_append.mp hx with hx1 | hx2
    · exact hrows x hx1
    · simp only [List.mem_singleton] at hx2
      subst hx2
      exact hr
  rw [extract_from_tables_clean _ hclean]
  simp only [List.foldl_cons, List.foldl_nil, List.foldl_append]
  rw [applyRow_eq_rowKV _ r hr, hkv]
  exact assocGet_assocSet_self _ k v

/-- Claim C4 (witness): the amended last-match-wins theorem applied to the
concrete two-row table of `twoIdPage`. -/
theorem C4_last_match_wins_witness :
    assocGet (extract_from_tables ⟨[], [[[some "Entity ID", some "111"],
      [some "Business ID", some "222"]]], ""⟩) "business_id" = some "222" :=
  C4_last_match_wins [] "" [[some "Entity ID", some "111"]]
    [some "Business ID", some "222"] "business_id" "222"
    (by decide) (by decide) (by decide)

/-- Claim C5: when the metadata-enriched candidate record fails the
`json.dumps` validation, `safe_extract_json_data` returns (without raising —
the function is total, the `except` catching exactly the classes `dumps`
raises) a minimal error record carrying `status='error'`, the failure reason
under `error_message`, a string preview of the record truncated by `[:500]`
(hence at most 500 characters), and the raw-markup evidence filename under
`html_fallback_file`, which is also handed back as the second component. -/
theorem C5_serialization_fallback (ctx : Ctx) (bd : PyVal) (term : String)
    (hdict : bd.isDict = true) (hser : serB (withMeta ctx bd term) = false) :
    pyGetStr (safe_extract_json_data ctx bd term).1 "status" = some "error" ∧
    pyGetStr (safe_extract_json_data ctx bd term).1 "error_type" =
      some "json_serialization_failed" ∧
    pyGetStr (safe_extract_json_data ctx bd term).1 "error_message" =
      some (serErrorMessage (withMeta ctx bd term)) ∧
    pyGetStr (safe_extract_json_data ctx bd term).1 "partial_business_data" =
      some (String.mk ((pyRepr (withMeta ctx bd term)).data.take 500)) ∧
    (String.mk ((pyRepr (withMeta ctx bd term)).data.take 500)).length ≤ 500 ∧
    pyGetStr (safe_extract_json_data ctx bd term).1 "html_fallback_file" =
      some (save_html_fallback ctx ("json_fail_" ++ term) "serialization_error") ∧
    (safe_extract_json_data ctx bd term).2 =
      some (save_html_fallback ctx ("json_fail_" ++ term) "serialization_error") := by
  have htruthy : pyTruthy (withMeta ctx bd term) = true := by
    cases bd with
    | dict kvs =>
      simp only [withMeta, pyTruthy]
      simp [List.isEmpty_iff, assocSet_ne_nil]
    | none => simp [PyVal.isDict] at hdict
    | bool b => simp [PyVal.isDict] at hdict
    | int n => simp [PyVal.isDict] at hdict
    | str s => simp [PyVal.isDict] at hdict
    | list xs => simp [PyVal.isDict] at hdict
    | obj t => simp [PyVal.isDict] at hdict
  simp only [safe_extract_json_data]
  rw [if_neg (by rw [hser]; exact Bool.false_ne_true), if_pos htruthy]
  refine ⟨rfl, rfl, rfl, rfl, ?_, rfl, rfl⟩
  show (List.take 500 (pyRepr (withMeta ctx bd term)).data).length ≤ 500
  rw [List.length_take]
  exact min_le_left _ _

/-- Claim C5 (witness): the fallback theorem applied to a concrete record
holding a live element handle. -/
theorem C5_serialization_fallback_witness :
    pyGetStr (safe_extract_json_data ctx0 handleRecord "AA").1 "status" = some "error" ∧
    pyGetStr (safe_extract_json_data ctx0 handleRecord "AA").1 "error_type" =
      some "json_serialization_failed" ∧
    pyGetStr (safe_extract_json_data ctx0 handleRecord "AA").1 "error_message" =
      some (serErrorMessage (withMeta ctx0 handleRecord "AA")) ∧
    pyGetStr (safe_extract_json_data ctx0 handleRecord "AA").1 "partial_business_data" =
      some (String.mk ((pyRepr (withMeta ctx0 handleRecord "AA")).data.take 500)) ∧
    (String.mk ((pyRepr (withMeta ctx0 handleRecord "AA")).data.take 500)).length ≤ 500 ∧
    pyGetStr (safe_extract_json_data ctx0 handleRecord "AA").1 "html_fallback_file" =
      some (save_html_fallback ctx0 "json_fail_AA" "serialization_error") ∧
    (safe_extract_json_data ctx0 handleRecord "AA").2 =
      some (save_html_fallback ctx0 "json_fail_AA" "serialization_error") :=
  C5_serialization_fallback ctx0 handleRecord "AA" rfl rfl

theorem string_append_cancel (a s1 s2 z : String) (h : a ++ s1 ++ z = a ++ s2 ++ z) :
    s1 = s2 := by
  have hd := congrArg String.data h
  simp only [String.data_append] at hd
  rw [List.append_assoc, List.append_assoc] at hd
  have h1 := List.append_cancel_left hd
  have h2 := List.append_cancel_right h1
  ext1
  exact h2

/-- Claim C6 (counterexample): the sanitizer of line 702 replaces EACH
non-word character with one underscore — it does not collapse runs. On
`"Acme, LLC & Co."` the source produces `"Acme__LLC___Co_"` (the comma-space
run becomes two fillers, the space-ampersand-space run three), while the
spec-worded run-collapsing sanitizer produces `"Acme_LLC_Co_"`. -/
theorem C6_runs_not_collapsed :
    cleanName "Acme, LLC & Co." = "Acme__LLC___Co_" ∧
    cleanNameSpec "Acme, LLC & Co." = "Acme_LLC_Co_" ∧
    cleanName "Acme, LLC & Co." ≠ cleanNameSpec "Acme, LLC & Co." :=
  ⟨rfl, rfl, by decide⟩

/-- Claim C6 (amended): the sanitized identifier substitutes one filler for
each single non-word character (no run collapsing) and is truncated to the
30-character bound: it equals the character-by-character substitution applied
to the first 30 characters of the name, and its length never exceeds 30. -/
theorem C6_substitute_then_truncate (s : String) :
    cleanName s = String.mk ((s.data.take 30).map replChar) ∧ (cleanName s).length ≤ 30 := by
  constructor
  · unfold cleanName reSubNonWord
    exact congrArg String.mk (List.map_take replChar s.data 30).symm
  · show ((reSubNonWord s).data.take 30).length ≤ 30
    rw [List.length_take]
    exact min_le_left _ _

/-- Claim C7 (counterexample): per-entity structured records are named
`json/business_<sanitized name>.json` with NO timestamp in the name — two
writes for the same business name from different runs (different search
terms, different clock readings) target exactly the same path, so a repeated
run overwrites the earlier artifact instead of being uniquely named. -/
theorem C7_filename_reused_across_runs :
    individualFilename acmeRecord "AA" "101010" =
      individualFilename acmeRecord "KANSAS" "235959" ∧
    individualFilename acmeRecord "AA" "101010" = "json/business_Acme.json" ∧
    ("101010" : String) ≠ "235959" :=
  ⟨rfl, rfl, by decide⟩

/-- Claim C7 (amended): HTML-fallback artifacts are uniquely named by their
timestamp — distinct timestamps give distinct paths — but a per-entity record
filename depends only on the sanitized business name, not on the clock or
the search term, so repeated extractions of one business target the same
path and overwrite. -/
theorem C7_timestamp_only_in_fallback (s term1 hms1 term2 hms2 fnamePre errType : String)
    (ctxA ctxB : Ctx) (hs : s ≠ "") (hstamp : ctxA.stamp ≠ ctxB.stamp) :
    individualFilename (PyVal.dict [("business_name", PyVal.str s)]) term1 hms1 =
      individualFilename (PyVal.dict [("business_name", PyVal.str s)]) term2 hms2 ∧
    save_html_fallback ctxA fnamePre errType ≠ save_html_fallback ctxB fnamePre errType := by
  constructor
  · show (if s ≠ "" then "json/business_" ++ cleanName s ++ ".json"
        else "json/error_" ++ term1 ++ "_" ++ hms1 ++ ".json") =
      (if s ≠ "" then "json/business_" ++ cleanName s ++ ".json"
        else "json/error_" ++ term2 ++ "_" ++ hms2 ++ ".json")
    rw [if_pos hs, if_pos hs]
  · intro he
    apply hstamp
    unfold save_html_fallback at he
    exact string_append_cancel _ _ _ _ he

/-- Claim C7 (witness): the amended theorem at business name `Acme`, two
different terms and clock readings. -/
theorem C7_timestamp_only_in_fallback_witness :
    individualFilename (PyVal.dict [("business_name", PyVal.str "Acme")]) "AA" "101010" =
      individualFilename (PyVal.dict [("business_name", PyVal.str "Acme")]) "KANSAS" "235959" ∧
    save_html_fallback ctx0 "json_fail_AA" "serialization_error" ≠
      save_html_fallback ctx1 "json_fail_AA" "serialization_error" :=
  C7_timestamp_only_in_fallback "Acme" "AA" "101010" "KANSAS" "235959" "json_fail_AA"
    "serialization_error" ctx0 ctx1 (by decide) (by decide)

/-- Claim C8 (counterexample): one `try` wraps the whole table scan
(lines 510-544), so a raising cell read in the FIRST row ends the scan
before the second row — which carries the entity name — is examined: the
source returns the empty mapping, while the spec-worded resilient scan
(failed lookup yields an empty string, extraction proceeds) still finds
`business_name = "Acme"`. -/
theorem C8_lookup_failure_aborts_scan :
    extract_from_tables staleRowPage = [] ∧
    extract_from_tables_resilient staleRowPage = [("business_name", "Acme")] ∧
    extract_from_tables staleRowPage ≠ extract_from_tables_resilient staleRowPage :=
  ⟨rfl, rfl, by decide⟩

/-- Claim C8 (amended): the extraction tiers never raise to their caller
(every modelled raise is caught), but a raising cell read in the table-scan
tier does not yield an empty string for just that attribute: it aborts the
remainder of the scan, returning exactly the attributes accumulated from the
clean rows before the failing one; the rows after it and all later tables
are never examined. -/
theorem C8_scan_stops_at_failure (es : List (String × Option String)) (content : String)
    (pre : List TRow) (bad : TRow) (post : List TRow) (ts2 : List TTable)
    (hpre : ∀ x ∈ pre, rowClean x = true) (hbad : rowClean bad = false) :
    extract_from_tables ⟨es, (pre ++ bad :: post) :: ts2, content⟩ =
      pre.foldl applyRow [] := by
  unfold extract_from_tables
  show (match scanTables [] ((pre ++ bad :: post) :: ts2) with
    | .ok d => d
    | .error d => d) = pre.foldl applyRow []
  unfold scanTables
  rw [scanRows_raising pre bad post hbad [] hpre]

/-- Claim C8 (witness): the abort theorem at a concrete table with one clean
row, one raising row, and a clean row after it. -/
theorem C8_scan_stops_at_failure_witness :
    extract_from_tables ⟨[], [[[some "Entity ID", some "111"], [Option.none, some "x"],
      [some "Entity Name", some "Acme"]]], ""⟩ = [("business_id", "111")] :=
  Eq.trans
    (C8_scan_stops_at_failure [] "" [[some "Entity ID", some "111"]]
      [Option.none, some "x"] [[some "Entity Name", some "Acme"]] [] (by decide) (by decide))
    rfl

/-- Claim C9: only failure of the navigation bootstrap aborts the crawl;
whatever per-stage failures the environment scripts (search setup, search
submission, empty result lists, row clicks, extraction outcomes, persistence,
return-to-results), the coordinator does not abort and still attempts every
search term in order. -/
theorem C9_only_bootstrap_aborts (env : CrawlEnv) :
    (run_fully_automated_crawler env).1 = !env.bootstrapOk ∧
    (run_fully_automated_crawler env).2.1 = (if env.bootstrapOk then searchTerms else []) := by
  unfold run_fully_automated_crawler
  cases hb : env.bootstrapOk with
  | false => exact ⟨rfl, rfl⟩
  | true =>
    refine ⟨rfl, ?_⟩
    simpa using crawlFold_attempted env searchTerms [] 0

/-- Claim C10: when tier 1 yields no `business_name`, the lower tier's mapping
replaces the tier-1 mapping entirely — the chain result is exactly the tier-2
or tier-3 output, with every tier-1 attribute discarded — and since only
tier 1 produces the two composite address attributes, neither the chain
mapping nor the final validated record contains `principal_office_address`
or `registered_office_address`. -/
theorem C10_replacement_loses_addresses (ctx : Ctx) (p : Page) (term : String)
    (h1 : getStr (extract_by_element_ids p) "business_name" = "") :
    ((extractTiers p).1 = extract_from_tables p ∨
      (extractTiers p).1 = extract_from_page_text p) ∧
    assocGet (extractTiers p).1 "principal_office_address" = Option.none ∧
    assocGet (extractTiers p).1 "registered_office_address" = Option.none ∧
    pyDictGet (extract_business_details_robust ctx p term) "principal_office_address" =
      Option.none ∧
    pyDictGet (extract_business_details_robust ctx p term) "registered_office_address" =
      Option.none := by
  have hkP : ∀ l, matchLabel l ≠ some "principal_office_address" := by
    intro l hl
    have hm := matchLabel_mem l _ hl
    simp at hm
  have hkR : ∀ l, matchLabel l ≠ some "registered_office_address" := by
    intro l hl
    have hm := matchLabel_mem l _ hl
    simp at hm
  have htP := extract_from_tables_get_other p _ hkP
  have htR := extract_from_tables_get_other p _ hkR
  have hxP : assocGet (extract_from_page_text p) "principal_office_address" = Option.none := by
    unfold extract_from_page_text
    rw [foldPat_get_other p.content.data _ textPatterns [] (by decide)]
    rfl
  have hxR : assocGet (extract_from_page_text p) "registered_office_address" = Option.none := by
    unfold extract_from_page_text
    rw [foldPat_get_other p.content.data _ textPatterns [] (by decide)]
    rfl
  have hrepl : (extractTiers p).1 = extract_from_tables p ∨
      (extractTiers p).1 = extract_from_page_text p := by
    unfold extractTiers
    rw [if_neg (by simp [h1])]
    by_cases h2 : getStr (extract_from_tables p) "business_name" ≠ ""
    · rw [if_pos h2]
      exact Or.inl rfl
    · rw [if_neg h2]
      exact Or.inr rfl
  have haP : assocGet (extractTiers p).1 "principal_office_address" = Option.none := by
    rcases hrepl with h | h
    · rw [h]; exact htP
    · rw [h]; exact hxP
  have haR : assocGet (extractTiers p).1 "registered_office_address" = Option.none := by
    rcases hrepl with h | h
    · rw [h]; exact htR
    · rw [h]; exact hxR
  refine ⟨hrepl, haP, haR, ?_, ?_⟩
  · exact robust_get_none ctx p term _ (by decide) (by decide) (by decide) (by decide)
      (by decide) (by decide) haP
  · exact robust_get_none ctx p term _ (by decide) (by decide) (by decide) (by decide)
      (by decide) (by decide) haR

/-- Claim C10 (witness): the replacement theorem at the page with no
extractable data. -/
theorem C10_replacement_loses_addresses_witness :
    ((extractTiers emptyPage).1 = extract_from_tables emptyPage ∨
      (extractTiers emptyPage).1 = extract_from_page_text emptyPage) ∧
    assocGet (extractTiers emptyPage).1 "principal_office_address" = Option.none ∧
    assocGet (extractTiers emptyPage).1 "registered_office_address" = Option.none ∧
    pyDictGet (extract_business_details_robust ctx0 emptyPage "AA") "principal_office_address" =
      Option.none ∧
    pyDictGet (extract_business_details_robust ctx0 emptyPage "AA") "registered_office_address" =
      Option.none :=
  C10_replacement_loses_addresses ctx0 emptyPage "AA" rfl
